import Mathlib

/-!
Shallow embedding of the free-text categorization and aggregation core of the
Nagpur garbage dashboard (src/src/App.js).  JavaScript numbers are modelled as
rationals, JS strings as Lean strings, and a dataset record as a total function
from field names to JS values, with absent fields reading as `null`.
JS objects used as counters are modelled as insertion-ordered association
lists, and the stable `Array.prototype.sort` as a stable insertion sort.
-/

namespace Dashboard

/-- A JavaScript value as it occurs in a dashboard record. -/
inductive JsVal where
  | num (q : ℚ)
  | str (s : String)
  | bool (b : Bool)
  | null
deriving DecidableEq

/-- A record of the dataset: a mapping from field name to value; absent
fields read as `null`. -/
def Row : Type := String → JsVal

/-- JS truthiness restricted to the values occurring in records. -/
def jsTruthy : JsVal → Bool
  | JsVal.num q => decide (q ≠ 0)
  | JsVal.str s => decide (s ≠ "")
  | JsVal.bool b => b
  | JsVal.null => false

/-- JS `a || b` on record values. -/
def jsOr (a b : JsVal) : JsVal := if jsTruthy a then a else b

/-- The string content of a value.  Free-text fields hold strings or null per
the data model; a truthy non-string would throw further down the JS pipeline
and is read as the empty string by the embedding. -/
def strOfVal : JsVal → String
  | JsVal.str s => s
  | _ => ""

/-- JS `row[field] || ""` for a free-text field. -/
def strField (row : Row) (field : String) : String :=
  strOfVal (jsOr (row field) (JsVal.str ""))

/-- Does the first character list occur as a leading segment of the second? -/
def leadMatch : List Char → List Char → Bool
  | [], _ => true
  | _ :: _, [] => false
  | a :: ks, b :: ss => a == b && leadMatch ks ss

/-- Does the first character list occur contiguously inside the second? -/
def subMatch : List Char → List Char → Bool
  | k, [] => leadMatch k []
  | k, b :: t => leadMatch k (b :: t) || subMatch k t

/-- JS `s.includes(k)`: substring containment. -/
def jsIncludes (s k : String) : Bool := subMatch k.toList s.toList

/-- JS `toLowerCase` restricted to the scripts occurring in this dataset:
ASCII letters are lowered, Devanagari and punctuation are left unchanged. -/
def jsToLower (s : String) : String := String.mk (s.toList.map Char.toLower)

/-- JS `trim`: strip whitespace from both ends. -/
def jsTrim (s : String) : String :=
  String.mk (((s.toList.dropWhile Char.isWhitespace).reverse.dropWhile
    Char.isWhitespace).reverse)

/-- One taxonomy entry: a category plus its keyword list (App.js shape
`{category, keywords}`). -/
structure TaxEntry where
  category : String
  keywords : List String
deriving DecidableEq

/-- The disposal-responsibility taxonomy (`categoryMap` in App.js), in
declaration order. -/
def categoryMap : List TaxEntry :=
  [ { category := "Nearby Households",
      keywords := ["nearby household", "house hol", "households",
        "colony people", "banglow wale log", "जवळ पास", "सोसायटी"] },
    { category := "Vendors / Small Stalls",
      keywords := ["vendor", "stall", "shop", "chai wale", "market wale",
        "street vendor"] },
    { category := "People from Outside",
      keywords := ["outside", "बाहेरून", "पर्यटक", "outsider", "visitor"] },
    { category := "Passing Crowd / Vehicle People",
      keywords := ["गाडी", "जाण्या येणाऱ्या", "ऑटो", "vehicle", "passing"] },
    { category := "Households and Vendors Mixed",
      keywords := ["households , people from outside , street vendors",
        "vendor and households", "people and households", "mixed"] },
    { category := "Construction Waste",
      keywords := ["construction", "repair", "काम", "बांधकाम"] },
    { category := "Showrooms / Commercial Establishments",
      keywords := ["showroom", "commercial"] },
    { category := "Public Parks / Institutions",
      keywords := ["उद्यान", "park", "public area", "lake", "ambazari"] },
    { category := "Citizens / General Public",
      keywords := ["citizens", "people", "public"] },
    { category := "Unknown / Not Mentioned",
      keywords := ["unknown", "माहित नाही", "n", "all", "dont know"] },
    { category := "Nearby + Outside Combined",
      keywords := ["nearby households and people from outside",
        "जवळ पास लोकांनी टाकतात आणि बाहेरून येणारे पण"] },
    { category := "Market / Vendor Community",
      keywords := ["market", "vendors", "stall"] } ]

/-- Loop body of `categorize`: the normalized text contains any of the
entry's keywords, each keyword lower-cased first. -/
def entryMatches (lowerText : String) (e : TaxEntry) : Bool :=
  e.keywords.any (fun k => jsIncludes lowerText (jsToLower k))

/-- App.js `categorize`: lower-case and trim the text, return the category of
the first entry of `categoryMap` with a keyword match, else the fallback.
Takes the text as a string; the behaviour on a null argument is modelled by
`categorizeNullable`. -/
def categorize (text : String) : String :=
  let lowerText := jsTrim (jsToLower text)
  match categoryMap.find? (fun e => entryMatches lowerText e) with
  | some e => e.category
  | none => "Unknown / Not Mentioned"

/-- The JS call `categorize(text)` with a possibly-null argument:
`text.toLowerCase()` throws a TypeError when `text` is null or undefined
(there is no `|| ""` guard inside `categorize`). -/
def categorizeNullable : Option String → Except String String
  | none => Except.error "TypeError"
  | some t => Except.ok (categorize t)

/-- The location-setting taxonomy (`locationMap` in App.js), in declaration
order. -/
def locationMap : List TaxEntry :=
  [ { category := "Residential Area",
      keywords := ["residential", "colony", "house", "society"] },
    { category := "Nallah / Drain", keywords := ["nallah", "drain"] },
    { category := "Market / Commercial Area",
      keywords := ["market_place", "market", "bazaar", "shop"] },
    { category := "Playground / Open Space",
      keywords := ["playground", "ground", "sports", "field"] },
    { category := "School / Institution",
      keywords := ["school", "college", "institution"] },
    { category := "Open Plot / Vacant Land",
      keywords := ["open_plot", "vacant", "empty plot"] },
    { category := "Roadside / Footpath / Public Path",
      keywords := ["road", "roadside", "road side", "footpath", "corner",
        "square", "front side", "temple", "collector office", "near sadar",
        "sem"] },
    { category := "Water Body / Lake Area",
      keywords := ["lake", "water", "pond", "नदी", "लेक"] },
    { category := "Other / Miscellaneous",
      keywords := ["other", "unknown", "misc"] } ]

/-- Loop body of `categorizeLocation`: keywords are matched as written
(they are already lower case in `locationMap`). -/
def entryMatchesPlain (lowerText : String) (e : TaxEntry) : Bool :=
  e.keywords.any (fun k => jsIncludes lowerText k)

/-- App.js `categorizeLocation`: guards a null argument via `(text || "")`,
then first-match over `locationMap`, else the fallback. -/
def categorizeLocation (text : Option String) : String :=
  let lowerText := jsTrim (jsToLower (text.getD ""))
  match locationMap.find? (fun e => entryMatchesPlain lowerText e) with
  | some e => e.category
  | none => "Other / Miscellaneous"

/-- The suggested-solution taxonomy (`solutionCategories` in App.js), in
declaration order, keyword spelling and spacing kept verbatim. -/
def solutionCategories : List TaxEntry :=
  [ { category := "Bins and Facilites",
      keywords := ["Dust bin at Roadside", "Should Punishment Fee",
        "More Bins", "Bins", "More bins", "More Bins Awareness Among People",
        "Dustbins", "Add a board ", "Say to Use Of Dustbin", "Add Dustbin",
        " Bins Too", " Dustbins and Strictly Fine",
        "Bins and Facilities and strict fines", "Increasing of Dustbin"] },
    { category := "Technology-Enabled Monitoring",
      keywords := ["Fine and Surveillance Camera at that Place",
        "Surveillance Camera at that Place", "install camera on street.",
        "Should Camera Surveillance"] },
    { category := "Strict Enforcement Measures ",
      keywords := ["Strict Fines", "strictly fine for people",
        "Strictly Fine", "strict fines", "and strictly fine for people"] },
    { category := "Public Awareness & Education ",
      keywords := ["Awareness Program", "Awareness Among People",
        "More Bins Awareness Among People"] },
    { category := "Sanitization Vehicle Roster",
      keywords := ["Should Regular Visit of Cleaner Vans"] },
    { category := "Regulatory & Administrative Support",
      keywords := ["the NMC vehicle should collect this garbage from here ."] },
    { category := "Efficient Waste Collection System",
      keywords := ["Proper schedule for collection vehicle",
        "The Place Need to be get cleaned from the road side on daily basis."] },
    { category := "Neutral Feedback", keywords := ["Nothing"] } ]

/-- App.js `categorizeSolution`: guards a null argument via `(text || "")`,
first-match over `solutionCategories` with keywords lower-cased, and yields
no category at all when nothing matches (`return null`). -/
def categorizeSolution (text : Option String) : Option String :=
  let lowerText := jsTrim (jsToLower (text.getD ""))
  match solutionCategories.find? (fun e => entryMatches lowerText e) with
  | some e => some e.category
  | none => none

/-- JS `obj[k] = (obj[k] || 0) + 1` on an insertion-ordered object modelled
as an association list. -/
def bump : List (String × Nat) → String → List (String × Nat)
  | [], k => [(k, 1)]
  | (k', v) :: rest, k =>
      if k' = k then (k', v + 1) :: rest else (k', v) :: bump rest k

/-- JS `Object.values(counts).reduce((sum, c) => sum + c, 0)`. -/
def listTotal (l : List (String × Nat)) : Nat := l.foldl (fun s p => s + p.2) 0

/-- The shared normalization step of the aggregators:
`value = totalCount > 0 ? (count / totalCount) * 100 : 0`. -/
def normalizePercents (counts : List (String × Nat)) : List (String × ℚ) :=
  let total := listTotal counts
  counts.map fun p =>
    (p.1, if 0 < total then ((p.2 : ℚ) / (total : ℚ)) * 100 else 0)

/-- Stable insertion of one entry into a value-descending list: the new entry
goes after existing entries of equal value, as a stable sort requires. -/
def insertDesc (x : String × ℚ) : List (String × ℚ) → List (String × ℚ)
  | [] => [x]
  | y :: ys => if y.2 < x.2 then x :: y :: ys else y :: insertDesc x ys

/-- JS `.sort((a, b) => b.value - a.value)`: stable descending sort by value,
modelled as a stable insertion sort (ECMAScript sort is stable and the
comparator is a total preorder, so the result is the same). -/
def sortDesc (l : List (String × ℚ)) : List (String × ℚ) :=
  l.foldl (fun acc x => insertDesc x acc) []

/-- Sum of the `value` components of a distribution. -/
def valueSum (l : List (String × ℚ)) : ℚ := (l.map Prod.snd).sum

/-- App.js `wasteTypeToColumnMap`: display category to flag column. -/
def wasteTypeToColumnMap : List (String × String) :=
  [ ("Organic & Wet", "Organic and Wet Waste"),
    ("Plastic Paper", "Plastic Paper Glass Waste"),
    ("Sanitary & Hazardous", "Sanitary and Hazardous Waste"),
    ("Battery & Bulb", "Battery and Bulb Waste"),
    ("Construction & Demolition", "Construction and Demolition Waste"),
    ("Clothes", "Clothes Waste"),
    ("Carcasses", "Carcasses Waste"),
    ("Others", "Others") ]

/-- Counting loop of `calculateWasteTypeCounts`: each row increments each
type whose flag column holds the number 1 (strict `=== 1`); entries carry
(type, column, count). -/
def wasteCounts (data : List Row) : List (String × String × Nat) :=
  data.foldl
    (fun acc row => acc.map fun t =>
      if row t.2.1 = JsVal.num 1 then (t.1, t.2.1, t.2.2 + 1) else t)
    (wasteTypeToColumnMap.map fun p => (p.1, p.2, 0))

/-- App.js `calculateWasteTypeCounts`: raw counts (no normalization), with
zero-count categories filtered out. -/
def calculateWasteTypeCounts (data : List Row) : List (String × ℚ) :=
  ((wasteCounts data).filter fun t => decide (0 < t.2.2)).map
    fun t => (t.1, (t.2.2 : ℚ))

/-- App.js `calculatePieForRow`: one entry of value 1 per flag column that
holds the number 1 (strict `=== 1`) on the given row. -/
def calculatePieForRow (row : Row) : List (String × ℚ) :=
  (wasteTypeToColumnMap.filter fun p => decide (row p.2 = JsVal.num 1)).map
    fun p => (p.1, (1 : ℚ))

/-- The five problem flag columns, in declaration order. -/
def problemsKeys : List String :=
  ["Bad Odour", "Mosquitos", "Stray Animals", "Congestion", "Other"]

/-- Counting loop of `calculateProblemsData`: strict `=== 1` test. -/
def problemsCounts (data : List Row) : List (String × Nat) :=
  data.foldl
    (fun acc row => acc.map fun p =>
      if row p.1 = JsVal.num 1 then (p.1, p.2 + 1) else p)
    (problemsKeys.map fun k => (k, 0))

/-- App.js `calculateProblemsData`: normalize then sort descending. -/
def calculateProblemsData (data : List Row) : List (String × ℚ) :=
  sortDesc (normalizePercents (problemsCounts data))

/-- The six reason flag columns, in declaration order. -/
def reasonsKeys : List String :=
  ["No Regular Collection Vehicle", "Random People Throwing Garbage",
   "Due To User Fee", "Mismatch of Vehicle Time", "Due to Narrow Road",
   "Because of Market and Street Vendors"]

/-- Counting loop of `calculateReasonsData`: `=== 1 || === true` test. -/
def reasonsCounts (data : List Row) : List (String × Nat) :=
  data.foldl
    (fun acc row => acc.map fun p =>
      if row p.1 = JsVal.num 1 ∨ row p.1 = JsVal.bool true
      then (p.1, p.2 + 1) else p)
    (reasonsKeys.map fun k => (k, 0))

/-- App.js `calculateReasonsData`: normalize then sort descending. -/
def calculateReasonsData (data : List Row) : List (String × ℚ) :=
  sortDesc (normalizePercents (reasonsCounts data))

/-- Counting loop of `calculateWhoDisposeData`: classify
`row["Who Dispose"] || ""` and bump that category; only observed categories
get keys. -/
def whoDisposeCounts (data : List Row) : List (String × Nat) :=
  data.foldl (fun acc row => bump acc (categorize (strField row "Who Dispose"))) []

/-- App.js `calculateWhoDisposeData`: normalize, sort descending, truncate
to the top five entries (`.slice(0, 5)`). -/
def calculateWhoDisposeData (data : List Row) : List (String × ℚ) :=
  (sortDesc (normalizePercents (whoDisposeCounts data))).take 5

/-- The setting text of a row:
`row["In_what_setting_is_the_GVP_pre"] || row["Location Type"] || row["other"] || ""`. -/
def settingText (row : Row) : String :=
  strOfVal (jsOr (row "In_what_setting_is_the_GVP_pre")
    (jsOr (row "Location Type") (jsOr (row "other") (JsVal.str ""))))

/-- Counting loop of `calculateSettingData`. -/
def settingCounts (data : List Row) : List (String × Nat) :=
  data.foldl (fun acc row => bump acc (categorizeLocation (some (settingText row)))) []

/-- App.js `calculateSettingData`: normalize, sort descending, truncate to
the top five entries (`.slice(0, 5)`). -/
def calculateSettingData (data : List Row) : List (String × ℚ) :=
  (sortDesc (normalizePercents (settingCounts data))).take 5

/-- The three solution text columns scanned per record. -/
def solutionColumns : List String :=
  ["Solution Suggested by Interviewee1", "Solution Suggested by Interviewee2",
   "Solution Suggested by Interviewee3"]

/-- One column of the solution scan: the guard
`solutionValue && solutionValue.trim() !== "" && solutionValue !== "N/A"`
followed by `categorizeSolution`; yields the category to increment, if any.
Solution columns hold strings or null per the data model; a truthy non-string
would throw inside `categorizeSolution` in JS and reads as a skipped column
here. -/
def colCategory : JsVal → Option String
  | JsVal.str s =>
      if s ≠ "" ∧ jsTrim s ≠ "" ∧ s ≠ "N/A" then categorizeSolution (some s)
      else none
  | _ => none

/-- The categories one row contributes, one per matching solution column. -/
def rowSolutionCats (row : Row) : List String :=
  solutionColumns.filterMap fun c => colCategory (row c)

/-- The solution counter object, pre-seeded with every known category at 0
(the `reduce` initializer in `calculateSolutionData`). -/
def solutionInit : List (String × Nat) :=
  solutionCategories.map fun e => (e.category, 0)

/-- Counting loop of `calculateSolutionData` over all rows and columns. -/
def solutionCounts (data : List Row) : List (String × Nat) :=
  data.foldl (fun acc row => (rowSolutionCats row).foldl bump acc) solutionInit

/-- App.js `calculateSolutionData`: uniform `100 / 8` fallback when the total
is zero, otherwise normalize all (pre-seeded) entries and sort descending. -/
def calculateSolutionData (data : List Row) : List (String × ℚ) :=
  let counts := solutionCounts data
  if listTotal counts = 0 then
    solutionCategories.map fun e => (e.category, (100 : ℚ) / 8)
  else
    sortDesc (normalizePercents counts)

/-- The uniform zero-data fallback distribution in the words of the spec
(§4.2): each known category gets an equal share of `100 / n`.  Stated from
the spec for comparison with the code's outputs. -/
def specUniformFallback (cats : List String) : List (String × ℚ) :=
  cats.map fun c => (c, (100 : ℚ) / (cats.length : ℚ))

/-- A record whose only populated field is the disposal text. -/
def whoRow (t : String) : Row :=
  fun f => if f = "Who Dispose" then JsVal.str t else JsVal.null

/-- Six records whose disposal texts classify into six distinct categories. -/
def whoSixData : List Row :=
  [whoRow "nearby household", whoRow "vendor", whoRow "outside",
   whoRow "vehicle", whoRow "mixed", whoRow "construction"]

/-- A record with a single waste-type flag set to the number 1. -/
def oneFlagRow : Row :=
  fun f => if f = "Others" then JsVal.num 1 else JsVal.null

/-- A record with two waste-type flags set to the number 1. -/
def numFlagRow : Row :=
  fun f => if f = "Clothes Waste" ∨ f = "Others" then JsVal.num 1 else JsVal.null

/-- A record with two waste-type flags set to boolean `true` (not 1). -/
def boolFlagRow : Row :=
  fun f => if f = "Clothes Waste" ∨ f = "Others" then JsVal.bool true else JsVal.null

/-- A record with one problem flag set. -/
def problemsRow : Row :=
  fun f => if f = "Bad Odour" then JsVal.num 1 else JsVal.null

/-- A record with one reason flag set to boolean `true`. -/
def reasonsRow : Row :=
  fun f => if f = "Due To User Fee" then JsVal.bool true else JsVal.null

/-- A record whose setting comes from the fallback column `Location Type`. -/
def settingRow : Row :=
  fun f => if f = "Location Type" then JsVal.str "market" else JsVal.null

/-- The record of the multi-column scan example: solution columns hold
`"More Bins"`, `"N/A"` and `""`. -/
def solRow : Row := fun f =>
  if f = "Solution Suggested by Interviewee1" then JsVal.str "More Bins"
  else if f = "Solution Suggested by Interviewee2" then JsVal.str "N/A"
  else if f = "Solution Suggested by Interviewee3" then JsVal.str ""
  else JsVal.null

lemma foldl_add_snd (l : List (String × Nat)) (n : Nat) :
    l.foldl (fun s p => s + p.2) n = n + (l.map Prod.snd).sum := by
  induction l generalizing n with
  | nil => simp
  | cons a t ih => simp [List.foldl_cons, ih, Nat.add_assoc]

lemma listTotal_eq (l : List (String × Nat)) :
    listTotal l = (l.map Prod.snd).sum := by
  simp [listTotal, foldl_add_snd]

lemma sum_map_div (l : List (String × Nat)) (T : ℚ) :
    (l.map fun p => ((p.2 : ℚ) / T) * 100).sum
      = (((l.map Prod.snd).sum : ℕ) : ℚ) / T * 100 := by
  induction l with
  | nil => simp
  | cons a t ih =>
      simp only [List.map_cons, List.sum_cons, ih]
      push_cast
      ring

lemma insertDesc_perm (x : String × ℚ) (l : List (String × ℚ)) :
    (insertDesc x l).Perm (x :: l) := by
  induction l with
  | nil => exact List.Perm.refl _
  | cons y ys ih =>
      by_cases h : y.2 < x.2
      · simp [insertDesc, h]
      · simp only [insertDesc, if_neg h]
        exact (ih.cons y).trans (List.Perm.swap x y ys)

lemma foldl_insertDesc_perm (l acc : List (String × ℚ)) :
    (l.foldl (fun a x => insertDesc x a) acc).Perm (l ++ acc) := by
  induction l generalizing acc with
  | nil => simp
  | cons x t ih =>
      have h1 := ih (insertDesc x acc)
      have h2 : (t ++ insertDesc x acc).Perm (t ++ (x :: acc)) :=
        List.Perm.append_left t (insertDesc_perm x acc)
      exact (h1.trans (h2.trans List.perm_middle)).trans (List.Perm.refl _)

lemma sortDesc_perm (l : List (String × ℚ)) : (sortDesc l).Perm l := by
  have h := foldl_insertDesc_perm l []
  simpa [sortDesc] using h

lemma valueSum_of_perm {l l' : List (String × ℚ)} (h : l.Perm l') :
    valueSum l = valueSum l' :=
  List.Perm.sum_eq (h.map Prod.snd)

lemma valueSum_normalizePercents (counts : List (String × Nat))
    (h : 0 < listTotal counts) : valueSum (normalizePercents counts) = 100 := by
  have hT : ((listTotal counts : ℕ) : ℚ) ≠ 0 :=
    Nat.cast_ne_zero.mpr (by omega)
  have hmap : (normalizePercents counts).map Prod.snd
      = counts.map fun p => ((p.2 : ℚ) / ((listTotal counts : ℕ) : ℚ)) * 100 := by
    simp only [normalizePercents, List.map_map]
    refine List.map_congr_left fun p _ => ?_
    simp [Function.comp, if_pos h]
  simp only [valueSum, hmap]
  rw [sum_map_div, ← listTotal_eq, div_self hT, one_mul]

lemma length_insertDesc (x : String × ℚ) (l : List (String × ℚ)) :
    (insertDesc x l).length = l.length + 1 := by
  induction l with
  | nil => rfl
  | cons y ys ih =>
      by_cases h : y.2 < x.2
      · simp [insertDesc, h]
      · simp [insertDesc, if_neg h, ih]

lemma length_foldl_insertDesc (l acc : List (String × ℚ)) :
    (l.foldl (fun a x => insertDesc x a) acc).length = l.length + acc.length := by
  induction l generalizing acc with
  | nil => simp
  | cons x t ih =>
      simp [List.foldl_cons, ih, length_insertDesc]
      omega

lemma length_sortDesc (l : List (String × ℚ)) : (sortDesc l).length = l.length := by
  simp [sortDesc, length_foldl_insertDesc]

lemma length_normalizePercents (counts : List (String × Nat)) :
    (normalizePercents counts).length = counts.length := by
  simp [normalizePercents]

lemma map_fst_normalizePercents (counts : List (String × Nat)) :
    (normalizePercents counts).map Prod.fst = counts.map Prod.fst := by
  simp [normalizePercents, List.map_map, Function.comp]

lemma valueSum_sortDesc_normalize (counts : List (String × Nat))
    (h : 0 < listTotal counts) :
    valueSum (sortDesc (normalizePercents counts)) = 100 := by
  rw [valueSum_of_perm (sortDesc_perm _)]
  exact valueSum_normalizePercents counts h

lemma take_five_sortDesc_normalize (counts : List (String × Nat))
    (hlen : counts.length ≤ 5) :
    (sortDesc (normalizePercents counts)).take 5
      = sortDesc (normalizePercents counts) := by
  apply List.take_of_length_le
  rw [length_sortDesc, length_normalizePercents]
  exact hlen

lemma bump_fst_mem (l : List (String × Nat)) (k m : String)
    (h : m ∈ (bump l k).map Prod.fst) : m ∈ l.map Prod.fst ∨ m = k := by
  induction l with
  | nil =>
      right
      simpa [bump] using h
  | cons a t ih =>
      rcases a with ⟨a1, a2⟩
      by_cases hk : a1 = k
      · left
        simpa [bump, hk] using h
      · rw [show bump ((a1, a2) :: t) k = (a1, a2) :: bump t k from by
            simp [bump, hk]] at h
        simp only [List.map_cons, List.mem_cons] at h
        rcases h with h | h
        · left; simp [h]
        · rcases ih h with h' | h'
          · left
            simp only [List.map_cons, List.mem_cons]
            exact Or.inr h'
          · right; exact h'

lemma foldl_bump_fst_mem (f : Row → String) (data : List Row) :
    ∀ (acc : List (String × Nat)) (m : String),
      m ∈ ((data.foldl (fun a r => bump a (f r)) acc).map Prod.fst) →
      m ∈ acc.map Prod.fst ∨ ∃ r ∈ data, f r = m := by
  induction data with
  | nil => intro acc m h; exact Or.inl h
  | cons r t ih =>
      intro acc m h
      rcases ih (bump acc (f r)) m h with h' | h'
      · rcases bump_fst_mem acc (f r) m h' with h'' | h''
        · exact Or.inl h''
        · exact Or.inr ⟨r, by simp, h''.symm⟩
      · rcases h' with ⟨r', hr', hfr⟩
        exact Or.inr ⟨r', by simp [hr'], hfr⟩

lemma foldl_mapstep_fst (step : Row → (String × Nat) → (String × Nat))
    (hstep : ∀ r p, (step r p).1 = p.1) (data : List Row) :
    ∀ acc : List (String × Nat),
      ((data.foldl (fun a r => a.map (step r)) acc).map Prod.fst)
        = acc.map Prod.fst := by
  induction data with
  | nil => intro acc; rfl
  | cons r t ih =>
      intro acc
      rw [List.foldl_cons, ih, List.map_map]
      exact List.map_congr_left fun p _ => hstep r p

lemma leadMatch_iff (k : List Char) :
    ∀ s : List Char, leadMatch k s = true ↔ ∃ t, s = k ++ t := by
  induction k with
  | nil =>
      intro s
      simp [leadMatch]
  | cons a ks ih =>
      intro s
      cases s with
      | nil =>
          simp [leadMatch]
      | cons b ss =>
          simp only [leadMatch, Bool.and_eq_true, beq_iff_eq, ih, List.cons_append]
          constructor
          · rintro ⟨rfl, t, rfl⟩
            exact ⟨t, rfl⟩
          · rintro ⟨t, ht⟩
            rcases List.cons_eq_cons.mp ht with ⟨hb, hs⟩
            exact ⟨hb.symm, t, hs⟩

lemma subMatch_iff (k : List Char) :
    ∀ s : List Char, subMatch k s = true ↔ ∃ p t, s = p ++ (k ++ t) := by
  intro s
  induction s with
  | nil =>
      simp only [subMatch, leadMatch_iff]
      constructor
      · rintro ⟨t, ht⟩
        exact ⟨[], t, ht⟩
      · rintro ⟨p, t, ht⟩
        rcases List.append_eq_nil.mp ht.symm with ⟨rfl, h2⟩
        exact ⟨t, ht⟩
  | cons b ss ih =>
      simp only [subMatch, Bool.or_eq_true, leadMatch_iff, ih]
      constructor
      · rintro (⟨t, ht⟩ | ⟨p, t, ht⟩)
        · exact ⟨[], t, by simp [ht]⟩
        · exact ⟨b :: p, t, by simp [ht]⟩
      · rintro ⟨p, t, ht⟩
        cases p with
        | nil =>
            left
            exact ⟨t, by simpa using ht⟩
        | cons c p' =>
            right
            rcases List.cons_eq_cons.mp ht with ⟨rfl, hs⟩
            exact ⟨p', t, hs⟩

lemma jsIncludes_trans {a b c : String} (h1 : jsIncludes b a = true)
    (h2 : jsIncludes c b = true) : jsIncludes c a = true := by
  simp only [jsIncludes, subMatch_iff] at h1 h2 ⊢
  rcases h1 with ⟨p, t, hb⟩
  rcases h2 with ⟨p', t', hc⟩
  refine ⟨p' ++ p, t ++ t', ?_⟩
  rw [hc, hb]
  simp [List.append_assoc]

lemma find?_of_first {α : Type} (p : α → Bool) :
    ∀ (l : List α) (i : Nat) (e : α), l[i]? = some e → p e = true →
      (∀ j, j < i → ∀ f, l[j]? = some f → p f = false) →
      l.find? p = some e := by
  intro l
  induction l with
  | nil =>
      intro i e h1 _ _
      simp at h1
  | cons a t ih =>
      intro i e h1 h2 h3
      cases i with
      | zero =>
          simp only [List.getElem?_cons_zero, Option.some.injEq] at h1
          subst h1
          exact List.find?_cons_of_pos t h2
      | succ n =>
          have ha : p a = false := h3 0 (Nat.succ_pos n) a (by simp)
          rw [List.find?_cons_of_neg t (by simp [ha])]
          refine ih n e ?_ h2 ?_
          · simpa using h1
          · intro j hj f hf
            exact h3 (j + 1) (Nat.succ_lt_succ hj) f (by simpa using hf)

/-- C2 (corrected, amended part): the classifiers return their default
category whenever no taxonomy entry's keyword matches the normalized text
(the fallback direction of the claim, which does hold). -/
theorem claim_C2_amended :
    (∀ text : String,
        (∀ e ∈ categoryMap, entryMatches (jsTrim (jsToLower text)) e = false) →
        categorize text = "Unknown / Not Mentioned")
  ∧ (∀ t : Option String,
        (∀ e ∈ locationMap,
          entryMatchesPlain (jsTrim (jsToLower (t.getD ""))) e = false) →
        categorizeLocation t = "Other / Miscellaneous") := by
  constructor
  · intro text h
    simp only [categorize]
    rw [List.find?_eq_none.mpr fun e he => by simp [h e he]]
  · intro t h
    simp only [categorizeLocation]
    rw [List.find?_eq_none.mpr fun e he => by simp [h e he]]

/-- C2 witness: both fallback directions applied to a text that matches no
keyword of either taxonomy. -/
theorem claim_C2_witness :
    categorize "xyz" = "Unknown / Not Mentioned"
      ∧ categorizeLocation (some "xyz") = "Other / Miscellaneous" :=
  ⟨claim_C2_amended.1 "xyz" (by decide),
   claim_C2_amended.2 (some "xyz") (by decide)⟩

/-- C2 counterexample: both default categories are themselves ordinary
taxonomy entries and are reached on texts that DO match a keyword:
`categorize "unknown"` returns the disposal default while the keyword
`"unknown"` matches, and likewise for the location default on `"other"`. -/
theorem claim_C2_counterexample :
    categorize "unknown" = "Unknown / Not Mentioned"
      ∧ (categoryMap.any fun e =>
          entryMatches (jsTrim (jsToLower "unknown")) e) = true
      ∧ categorizeLocation (some "other") = "Other / Miscellaneous"
      ∧ (locationMap.any fun e =>
          entryMatchesPlain (jsTrim (jsToLower "other")) e) = true := by
  decide

/-- C4 (corrected, amended part): `categorizeLocation` and
`categorizeSolution` guard null input via `(text || "")` and return their
fallback results, and all three classifiers are total on the empty string;
only `categorize` lacks the null guard (see the counterexample). -/
theorem claim_C4_amended :
    categorizeLocation none = "Other / Miscellaneous"
      ∧ categorizeSolution none = none
      ∧ categorize "" = "Unknown / Not Mentioned"
      ∧ categorizeLocation (some "") = "Other / Miscellaneous"
      ∧ categorizeSolution (some "") = none := by
  decide

/-- C4 counterexample: `categorize(null)` throws a TypeError
(`null.toLowerCase()`) instead of returning the default category. -/
theorem claim_C4_counterexample :
    categorizeNullable none = Except.error "TypeError" := rfl

/-- C7 (confirmed): whenever the solution aggregation's total count is zero,
`calculateSolutionData` returns one entry per known solution category, eight
in all, each with value 100 / 8 = 12.5. -/
theorem claim_C7_zero_fallback (data : List Row)
    (h : listTotal (solutionCounts data) = 0) :
    calculateSolutionData data
        = solutionCategories.map (fun e => (e.category, (100 : ℚ) / 8))
      ∧ (calculateSolutionData data).length = 8
      ∧ (100 : ℚ) / 8 = 12.5
      ∧ ∀ e ∈ calculateSolutionData data, e.2 = (100 : ℚ) / 8 := by
  have h1 : calculateSolutionData data
      = solutionCategories.map fun e => (e.category, (100 : ℚ) / 8) := by
    simp only [calculateSolutionData]
    rw [if_pos h]
  refine ⟨h1, ?_, by norm_num, ?_⟩
  · rw [h1]; rfl
  · rw [h1]
    intro e he
    rcases List.mem_map.mp he with ⟨x, _, rfl⟩
    rfl

/-- C7 witness: the zero-data fallback on the empty record set. -/
theorem claim_C7_witness :
    calculateSolutionData []
        = solutionCategories.map (fun e => (e.category, (100 : ℚ) / 8))
      ∧ (calculateSolutionData []).length = 8
      ∧ (100 : ℚ) / 8 = 12.5
      ∧ ∀ e ∈ calculateSolutionData [], e.2 = (100 : ℚ) / 8 :=
  claim_C7_zero_fallback [] (by decide)

/-- C8 (confirmed): a solution column contributes only when it holds a
string that is non-empty after trimming, differs from the literal "N/A",
and matches some solution category; and the record with columns
"More Bins" / "N/A" / "" contributes exactly one count, to
"Bins and Facilites". -/
theorem claim_C8_multicolumn :
    (∀ (v : JsVal) (c : String), colCategory v = some c →
        ∃ s, v = JsVal.str s ∧ jsTrim s ≠ "" ∧ s ≠ "N/A"
          ∧ categorizeSolution (some s) = some c)
  ∧ colCategory (JsVal.str " N/A ") = none
  ∧ rowSolutionCats solRow = ["Bins and Facilites"]
  ∧ solutionCounts [solRow] =
      [("Bins and Facilites", 1), ("Technology-Enabled Monitoring", 0),
       ("Strict Enforcement Measures ", 0), ("Public Awareness & Education ", 0),
       ("Sanitization Vehicle Roster", 0),
       ("Regulatory & Administrative Support", 0),
       ("Efficient Waste Collection System", 0), ("Neutral Feedback", 0)]
  ∧ listTotal (solutionCounts [solRow]) = 1 := by
  refine ⟨?_, by decide, by decide, by decide, by decide⟩
  intro v c h
  cases v with
  | num q => simp [colCategory] at h
  | str s =>
      simp only [colCategory] at h
      by_cases hc : s ≠ "" ∧ jsTrim s ≠ "" ∧ s ≠ "N/A"
      · rw [if_pos hc] at h
        exact ⟨s, rfl, hc.2.1, hc.2.2, h⟩
      · rw [if_neg hc] at h
        cases h
  | bool b => simp [colCategory] at h
  | null => simp [colCategory] at h

/-- C8 witness: the guard-and-classify fact instantiated at the column value
"More Bins". -/
theorem claim_C8_witness :
    ∃ s, JsVal.str "More Bins" = JsVal.str s ∧ jsTrim s ≠ "" ∧ s ≠ "N/A"
      ∧ categorizeSolution (some s) = some "Bins and Facilites" :=
  claim_C8_multicolumn.1 (JsVal.str "More Bins") "Bins and Facilites" (by decide)

/-- C9 (corrected, amended part): for a record with exactly two waste-type
flag columns equal to the NUMBER 1, `calculatePieForRow` returns two entries,
each of value 1; flags holding boolean `true` are not counted (see the
counterexample), because the source tests `=== 1` only. -/
theorem claim_C9_amended (row : Row)
    (h : (wasteTypeToColumnMap.filter fun p =>
        decide (row p.2 = JsVal.num 1)).length = 2) :
    (calculatePieForRow row).length = 2
      ∧ ∀ e ∈ calculatePieForRow row, e.2 = 1 := by
  constructor
  · simp only [calculatePieForRow, List.length_map]
    exact h
  · intro e he
    rcases List.mem_map.mp he with ⟨p, _, rfl⟩
    rfl

/-- C9 witness: a record with two flags equal to the number 1. -/
theorem claim_C9_witness :
    (calculatePieForRow numFlagRow).length = 2
      ∧ ∀ e ∈ calculatePieForRow numFlagRow, e.2 = 1 :=
  claim_C9_amended numFlagRow (by decide)

/-- C9 counterexample: a record with two waste-type flags set to boolean
`true` (truthy per the claim) yields the EMPTY distribution, not a 2-element
one, because `calculatePieForRow` tests `=== 1` only. -/
theorem claim_C9_counterexample :
    calculatePieForRow boolFlagRow = []
      ∧ (wasteTypeToColumnMap.filter fun p =>
          jsTruthy (boolFlagRow p.2)).length = 2 := by
  decide

/-- C3 (corrected, amended part): on the empty record set the waste-type,
who-dispose and setting aggregations return the empty distribution, the
problems and reasons aggregations return every known category with value 0,
and the solution aggregation returns the uniform 100 / 8 fallback; none of
them fails or divides by zero. -/
theorem claim_C3_amended :
    calculateWasteTypeCounts [] = []
      ∧ calculateWhoDisposeData [] = []
      ∧ calculateSettingData [] = []
      ∧ calculateProblemsData [] = problemsKeys.map (fun k => (k, (0 : ℚ)))
      ∧ calculateReasonsData [] = reasonsKeys.map (fun k => (k, (0 : ℚ)))
      ∧ calculateSolutionData []
          = solutionCategories.map (fun e => (e.category, (100 : ℚ) / 8))
      ∧ calculateSolutionData []
          = specUniformFallback (solutionCategories.map fun e => e.category) := by
  refine ⟨by decide, by decide, by decide, by decide, by decide, rfl, ?_⟩
  have h1 : calculateSolutionData []
      = solutionCategories.map fun e => (e.category, (100 : ℚ) / 8) := rfl
  rw [h1, specUniformFallback, List.map_map]
  refine List.map_congr_left fun e _ => ?_
  norm_num [Function.comp, solutionCategories]

/-- C3 counterexample: on the empty record set `calculateProblemsData`
returns five entries of value 0, which is neither the empty sequence nor the
spec's uniform fallback distribution (100 / 5 = 20 per entry). -/
theorem claim_C3_counterexample :
    calculateProblemsData [] ≠ []
      ∧ calculateProblemsData [] ≠ specUniformFallback problemsKeys := by
  have h1 : calculateProblemsData []
      = problemsKeys.map (fun k => (k, (0 : ℚ))) := by decide
  constructor
  · rw [h1]; simp [problemsKeys]
  · rw [h1]; norm_num [problemsKeys, specUniformFallback]

/-- C1 (corrected, amended part): for record sets with positive total count
the problems, reasons and solution distributions sum to 100, and so do the
who-dispose and setting distributions BEFORE top-5 truncation; the truncated
outputs sum to 100 when at most five categories were observed (with six or
more, entries are dropped and the sum falls below 100 — see the
counterexample). -/
theorem claim_C1_amended (data : List Row) :
    (0 < listTotal (problemsCounts data) →
        valueSum (calculateProblemsData data) = 100)
  ∧ (0 < listTotal (reasonsCounts data) →
        valueSum (calculateReasonsData data) = 100)
  ∧ (0 < listTotal (solutionCounts data) →
        valueSum (calculateSolutionData data) = 100)
  ∧ (0 < listTotal (whoDisposeCounts data) →
        valueSum (sortDesc (normalizePercents (whoDisposeCounts data))) = 100
        ∧ ((whoDisposeCounts data).length ≤ 5 →
            valueSum (calculateWhoDisposeData data) = 100))
  ∧ (0 < listTotal (settingCounts data) →
        valueSum (sortDesc (normalizePercents (settingCounts data))) = 100
        ∧ ((settingCounts data).length ≤ 5 →
            valueSum (calculateSettingData data) = 100)) := by
  refine ⟨fun h => ?_, fun h => ?_, fun h => ?_,
    fun h => ⟨valueSum_sortDesc_normalize _ h, fun hlen => ?_⟩,
    fun h => ⟨valueSum_sortDesc_normalize _ h, fun hlen => ?_⟩⟩
  · exact valueSum_sortDesc_normalize _ h
  · exact valueSum_sortDesc_normalize _ h
  · simp only [calculateSolutionData]
    rw [if_neg (by omega)]
    exact valueSum_sortDesc_normalize _ h
  · simp only [calculateWhoDisposeData]
    rw [take_five_sortDesc_normalize _ hlen]
    exact valueSum_sortDesc_normalize _ h
  · simp only [calculateSettingData]
    rw [take_five_sortDesc_normalize _ hlen]
    exact valueSum_sortDesc_normalize _ h

/-- C1 witness: each sum-to-100 fact applied to a one-record dataset with
positive total. -/
theorem claim_C1_witness :
    valueSum (calculateProblemsData [problemsRow]) = 100
      ∧ valueSum (calculateReasonsData [reasonsRow]) = 100
      ∧ valueSum (calculateSolutionData [solRow]) = 100
      ∧ valueSum (calculateWhoDisposeData [whoRow "vendor"]) = 100
      ∧ valueSum (calculateSettingData [settingRow]) = 100 :=
  ⟨(claim_C1_amended [problemsRow]).1 (by decide),
   (claim_C1_amended [reasonsRow]).2.1 (by decide),
   (claim_C1_amended [solRow]).2.2.1 (by decide),
   ((claim_C1_amended [whoRow "vendor"]).2.2.2.1 (by decide)).2 (by decide),
   ((claim_C1_amended [settingRow]).2.2.2.2 (by decide)).2 (by decide)⟩

/-- C1 counterexample: six records whose disposal texts land in six distinct
categories give a positive total, yet the returned top-5 distribution sums
to 500/6 < 100, refuting the sum-to-100 claim for `calculateWhoDisposeData`. -/
theorem claim_C1_counterexample :
    0 < listTotal (whoDisposeCounts whoSixData)
      ∧ valueSum (calculateWhoDisposeData whoSixData) < 100 := by
  constructor
  · decide
  · have hc : whoDisposeCounts whoSixData
        = [("Nearby Households", 1), ("Vendors / Small Stalls", 1),
           ("People from Outside", 1), ("Passing Crowd / Vehicle People", 1),
           ("Households and Vendors Mixed", 1), ("Construction Waste", 1)] := by
      decide
    simp only [calculateWhoDisposeData, hc]
    norm_num [normalizePercents, listTotal, sortDesc, insertDesc, valueSum]

/-- C5 (corrected, amended part): the problems and reasons aggregations keep
every known category (output names are a permutation of the key lists), the
waste-type aggregation keeps only categories with positive count (zero-count
ones are dropped — see the counterexample), and the who-dispose and setting
aggregations emit only categories observed by classifying some input record. -/
theorem claim_C5_amended (data : List Row) :
    ((calculateProblemsData data).map Prod.fst).Perm problemsKeys
  ∧ ((calculateReasonsData data).map Prod.fst).Perm reasonsKeys
  ∧ (∀ e ∈ calculateWasteTypeCounts data, 0 < e.2)
  ∧ (∀ n ∈ (calculateWhoDisposeData data).map Prod.fst,
        ∃ row ∈ data, categorize (strField row "Who Dispose") = n)
  ∧ (∀ n ∈ (calculateSettingData data).map Prod.fst,
        ∃ row ∈ data, categorizeLocation (some (settingText row)) = n) := by
  refine ⟨?_, ?_, ?_, ?_, ?_⟩
  · have hpk : (problemsCounts data).map Prod.fst = problemsKeys := by
      have h2 : ((problemsCounts data).map Prod.fst)
          = ((problemsKeys.map fun k => (k, 0)).map Prod.fst) :=
        foldl_mapstep_fst
          (fun r p => if r p.1 = JsVal.num 1 then (p.1, p.2 + 1) else p)
          (fun r p => by dsimp; split <;> rfl) data _
      rw [h2]
      decide
    have hperm :
        ((sortDesc (normalizePercents (problemsCounts data))).map Prod.fst).Perm
          ((normalizePercents (problemsCounts data)).map Prod.fst) :=
      (sortDesc_perm _).map Prod.fst
    rw [map_fst_normalizePercents, hpk] at hperm
    exact hperm
  · have hpk : (reasonsCounts data).map Prod.fst = reasonsKeys := by
      have h2 : ((reasonsCounts data).map Prod.fst)
          = ((reasonsKeys.map fun k => (k, 0)).map Prod.fst) :=
        foldl_mapstep_fst
          (fun r p => if r p.1 = JsVal.num 1 ∨ r p.1 = JsVal.bool true
            then (p.1, p.2 + 1) else p)
          (fun r p => by dsimp; split <;> rfl) data _
      rw [h2]
      decide
    have hperm :
        ((sortDesc (normalizePercents (reasonsCounts data))).map Prod.fst).Perm
          ((normalizePercents (reasonsCounts data)).map Prod.fst) :=
      (sortDesc_perm _).map Prod.fst
    rw [map_fst_normalizePercents, hpk] at hperm
    exact hperm
  · intro e he
    rcases List.mem_map.mp he with ⟨t, ht, rfl⟩
    have hdec := (List.mem_filter.mp ht).2
    have hpos : 0 < t.2.2 := of_decide_eq_true hdec
    show (0 : ℚ) < (t.2.2 : ℚ)
    exact_mod_cast hpos
  · intro n hn
    have hn' : n ∈ (sortDesc (normalizePercents (whoDisposeCounts data))).map
        Prod.fst := by
      rcases List.mem_map.mp hn with ⟨e, he, rfl⟩
      exact List.mem_map.mpr ⟨e, List.mem_of_mem_take he, rfl⟩
    have hn2 : n ∈ (normalizePercents (whoDisposeCounts data)).map Prod.fst :=
      (((sortDesc_perm _).map Prod.fst).mem_iff).mp hn'
    rw [map_fst_normalizePercents] at hn2
    rcases foldl_bump_fst_mem
        (fun r => categorize (strField r "Who Dispose")) data [] n hn2 with h | h
    · simp at h
    · exact h
  · intro n hn
    have hn' : n ∈ (sortDesc (normalizePercents (settingCounts data))).map
        Prod.fst := by
      rcases List.mem_map.mp hn with ⟨e, he, rfl⟩
      exact List.mem_map.mpr ⟨e, List.mem_of_mem_take he, rfl⟩
    have hn2 : n ∈ (normalizePercents (settingCounts data)).map Prod.fst :=
      (((sortDesc_perm _).map Prod.fst).mem_iff).mp hn'
    rw [map_fst_normalizePercents] at hn2
    rcases foldl_bump_fst_mem
        (fun r => categorizeLocation (some (settingText r))) data [] n hn2 with h | h
    · simp at h
    · exact h

/-- C5 witness: the key-preservation and only-observed facts instantiated at
concrete one-record datasets. -/
theorem claim_C5_witness :
    ((calculateProblemsData [problemsRow]).map Prod.fst).Perm problemsKeys
      ∧ (∃ row ∈ [whoRow "vendor"],
          categorize (strField row "Who Dispose") = "Vendors / Small Stalls")
      ∧ (∃ row ∈ [settingRow],
          categorizeLocation (some (settingText row)) = "Market / Commercial Area")
      ∧ (0 : ℚ) < (("Others", (1 : ℚ)) : String × ℚ).2 :=
  ⟨(claim_C5_amended [problemsRow]).1,
   (claim_C5_amended [whoRow "vendor"]).2.2.2.1 "Vendors / Small Stalls" (by decide),
   (claim_C5_amended [settingRow]).2.2.2.2 "Market / Commercial Area" (by decide),
   (claim_C5_amended [oneFlagRow]).2.2.1 ("Others", (1 : ℚ)) (by decide)⟩

/-- C5 counterexample: one record with a single waste-type flag yields a
one-entry waste-type distribution — the seven zero-count categories are
dropped, not kept. -/
theorem claim_C5_counterexample :
    calculateWasteTypeCounts [oneFlagRow] = [("Others", 1)]
      ∧ wasteTypeToColumnMap.length = 8 := by
  decide

/-- C6 (confirmed): the classifier returns the category of the first taxonomy
entry in declaration order with any keyword match, and in particular
`categorize "street vendor stall"` resolves to "Vendors / Small Stalls"
(the earlier entry whose keyword "vendor" matches), not
"Market / Vendor Community". -/
theorem claim_C6_first_match :
    (∀ (text : String) (i : Nat) (e : TaxEntry),
        categoryMap[i]? = some e →
        entryMatches (jsTrim (jsToLower text)) e = true →
        (∀ j, j < i → ∀ f : TaxEntry, categoryMap[j]? = some f →
          entryMatches (jsTrim (jsToLower text)) f = false) →
        categorize text = e.category)
  ∧ categorize "street vendor stall" = "Vendors / Small Stalls" := by
  constructor
  · intro text i e h1 h2 h3
    simp only [categorize]
    rw [find?_of_first _ categoryMap i e h1 h2 h3]
  · rfl

/-- C6 witness: the first-match rule applied at index 1 of the disposal
taxonomy on the text "street vendor stall", with the earlier entry checked
not to match. -/
theorem claim_C6_witness :
    categorize "street vendor stall" = "Vendors / Small Stalls" := by
  refine claim_C6_first_match.1 "street vendor stall" 1
    ⟨"Vendors / Small Stalls",
     ["vendor", "stall", "shop", "chai wale", "market wale", "street vendor"]⟩
    (by decide) (by decide) ?_
  intro j hj f hf
  have hj0 : j = 0 := by omega
  subst hj0
  have hv : categoryMap[0]? = some (⟨"Nearby Households",
      ["nearby household", "house hol", "households", "colony people",
       "banglow wale log", "जवळ पास", "सोसायटी"]⟩ : TaxEntry) := by decide
  rw [hf] at hv
  injection hv with hv'
  rw [hv']
  decide

/-- C10 (confirmed): `categorize` never returns "Nearby + Outside Combined":
each keyword of that entry contains a keyword of the earlier
"Nearby Households" entry ("nearby household", resp. the Marathi phrase), so
any text matching the combined entry is captured by the first entry before
the scan reaches it. -/
theorem claim_C10_dead_category (text : String) :
    (categorize text == "Nearby + Outside Combined") = false := by
  simp only [categorize]
  cases hf : categoryMap.find?
      (fun e => entryMatches (jsTrim (jsToLower text)) e) with
  | none => decide
  | some e =>
    by_cases hcat : e.category = "Nearby + Outside Combined"
    · exfalso
      have hp := List.find?_some hf
      have hmem := List.mem_of_find?_eq_some hf
      have huniq : ∀ x ∈ categoryMap,
          x.category = "Nearby + Outside Combined" →
          x = ⟨"Nearby + Outside Combined",
            ["nearby households and people from outside",
             "जवळ पास लोकांनी टाकतात आणि बाहेरून येणारे पण"]⟩ := by decide
      have he := huniq e hmem hcat
      rw [he] at hp
      have hl : jsIncludes (jsTrim (jsToLower text)) "nearby household" = true
          ∨ jsIncludes (jsTrim (jsToLower text)) "जवळ पास" = true := by
        simp only [entryMatches, List.any_cons, List.any_nil,
          Bool.or_eq_true, Bool.or_false] at hp
        rcases hp with h | h
        · exact Or.inl (jsIncludes_trans (by decide) h)
        · exact Or.inr (jsIncludes_trans (by decide) h)
      have hm0 : entryMatches (jsTrim (jsToLower text))
          ⟨"Nearby Households",
           ["nearby household", "house hol", "households", "colony people",
            "banglow wale log", "जवळ पास", "सोसायटी"]⟩ = true := by
        simp only [entryMatches, List.any_cons, List.any_nil,
          Bool.or_eq_true, Bool.or_false]
        rcases hl with h | h
        · exact Or.inl h
        · right; right; right; right; right
          exact Or.inl h
      unfold categoryMap at hf
      rw [List.find?_cons_of_pos _ hm0] at hf
      rw [he] at hf
      exact absurd hf (by decide)
    · exact beq_eq_false_iff_ne.mpr hcat

end Dashboard
